import Mathlib

/-!
Shallow embedding of the FM-DX Webserver "Server Temperature" plugin
(`ServerTemp_server.js`, `ServerTemp.js`) and proofs about its
temperature-acquisition state machine, cache, scheduler and HTTP endpoint.

JavaScript numbers that can be `NaN` are modelled as `Option ℚ` (`none` is
`NaN`); the `Infinity` literal form of `parseFloat` input is outside the
modelled input space (no claim depends on it).  Asynchronous callbacks are
modelled by direct-style functions: each acquisition cycle is a pure
function of the probe environment (the outcome each probe command would
produce during that cycle) and the current mutable state.
-/

deriving instance DecidableEq for Except

namespace ServerTemp

/-- A JavaScript number: `none` models `NaN`, `some q` a numeric value. -/
abbrev JSNum := Option ℚ

/-- Result of `exec`/file read handed to a probe callback: `error` is
`some message` when the command failed, and `stdout` is the captured
output (`""` is falsy in the JS truthiness test `if (!error && stdout)`). -/
structure ExecResult where
  error : Option String
  stdout : String
deriving DecidableEq, Repr

/-- Character class `[\d.]` used by the capture groups of both regexes. -/
def isDigitDot (c : Char) : Bool := c.isDigit || c == '.'

/-- JavaScript `\s` restricted to the ASCII whitespace characters. -/
def jsSpace (c : Char) : Bool :=
  c == ' ' || c == '\t' || c == '\n' || c == '\r' || c == '\x0b' || c == '\x0c'

/-- Numeric value of a digit string. -/
def digitsToNat (ds : List Char) : Nat :=
  ds.foldl (fun n c => 10 * n + (c.toNat - 48)) 0

/-- Exact rational value `±(ip.fp) · 10 ^ e` of a signed decimal with
integer digits `ip`, fraction digits `fp` and exponent `e`; built as a
single `mkRat` of machine integers so that it is kernel-computable. -/
def decValue (neg : Bool) (ip fp : List Char) (e : Int) : ℚ :=
  let n : Int := Int.ofNat (digitsToNat ip * 10 ^ fp.length + digitsToNat fp)
  let n : Int := if neg then -n else n
  match e with
  | .ofNat k => mkRat (n * Int.ofNat (10 ^ k)) (10 ^ fp.length)
  | .negSucc k => mkRat n (10 ^ fp.length * 10 ^ (k + 1))

/-- Mantissa of JavaScript `parseFloat`: `digits [. digits]` or `. digits`;
returns the integer digits, the fraction digits and the unconsumed rest,
or `none` when no digit is present on either side of the dot. -/
def parseMantissa (l : List Char) : Option (List Char × List Char × List Char) :=
  let ip := l.takeWhile Char.isDigit
  let r1 := l.dropWhile Char.isDigit
  match r1 with
  | '.' :: r2 =>
    let fp := r2.takeWhile Char.isDigit
    let r3 := r2.dropWhile Char.isDigit
    if ip.isEmpty && fp.isEmpty then none
    else some (ip, fp, r3)
  | _ => if ip.isEmpty then none else some (ip, [], r1)

/-- Exponent digits after the `e`/`E` marker, with optional sign. -/
def parseExpAfterMark (l : List Char) : Option Int :=
  match l with
  | '+' :: r =>
    let ds := r.takeWhile Char.isDigit
    if ds.isEmpty then none else some (digitsToNat ds)
  | '-' :: r =>
    let ds := r.takeWhile Char.isDigit
    if ds.isEmpty then none else some (-(digitsToNat ds : Int))
  | _ =>
    let ds := l.takeWhile Char.isDigit
    if ds.isEmpty then none else some (digitsToNat ds)

/-- Optional exponent part of `parseFloat`; an `e` not followed by digits is
ignored (`parseFloat("1e") = 1`). -/
def parseExponent (l : List Char) : Int :=
  match l with
  | 'e' :: r => (parseExpAfterMark r).getD 0
  | 'E' :: r => (parseExpAfterMark r).getD 0
  | _ => 0

/-- JavaScript `parseFloat` on decimal input: skip leading whitespace, read
an optional sign, a mantissa and an optional exponent, ignore trailing
garbage; `none` models the `NaN` result. -/
def parseFloatQ (s : String) : JSNum :=
  let l := s.toList.dropWhile jsSpace
  match l with
  | '+' :: r =>
    match parseMantissa r with
    | none => none
    | some (ip, fp, rest) => some (decValue false ip fp (parseExponent rest))
  | '-' :: r =>
    match parseMantissa r with
    | none => none
    | some (ip, fp, rest) => some (decValue true ip fp (parseExponent rest))
  | _ =>
    match parseMantissa l with
    | none => none
    | some (ip, fp, rest) => some (decValue false ip fp (parseExponent rest))

/-- Match of `temp=([\d.]+)` anchored at the start of `l`: the capture is
the maximal nonempty `[\d.]` run after the literal `temp=`. -/
def matchTempAt (l : List Char) : Option (List Char) :=
  match l with
  | 't' :: 'e' :: 'm' :: 'p' :: '=' :: r =>
    let cap := r.takeWhile isDigitDot
    if cap.isEmpty then none else some cap
  | _ => none

/-- First match of `/temp=([\d.]+)/` in the string (JS regex scan order:
earliest starting index wins), returning the capture group. -/
def vcgencmdMatch : List Char → Option (List Char)
  | [] => none
  | c :: cs =>
    match matchTempAt (c :: cs) with
    | some cap => some cap
    | none => vcgencmdMatch cs

/-- Match of `Core \d+:\s+\+([\d.]+)°C` anchored at the start of `l`.
Each quantified class is followed by a character outside the class, so the
greedy maximal-run reading is exact (no backtracking can succeed). -/
def sensorsMatchAt (l : List Char) : Option (List Char) :=
  match l with
  | 'C' :: 'o' :: 'r' :: 'e' :: ' ' :: r1 =>
    let ds := r1.takeWhile Char.isDigit
    let r2 := r1.dropWhile Char.isDigit
    if ds.isEmpty then none else
    match r2 with
    | ':' :: r3 =>
      let ws := r3.takeWhile jsSpace
      let r4 := r3.dropWhile jsSpace
      if ws.isEmpty then none else
      match r4 with
      | '+' :: r5 =>
        let cap := r5.takeWhile isDigitDot
        let r6 := r5.dropWhile isDigitDot
        if cap.isEmpty then none else
        match r6 with
        | '°' :: 'C' :: _ => some cap
        | _ => none
      | _ => none
    | _ => none
  | _ => none

/-- First match of `/Core \d+:\s+\+([\d.]+)°C/` in the string, returning
the capture group. -/
def sensorsMatch : List Char → Option (List Char)
  | [] => none
  | c :: cs =>
    match sensorsMatchAt (c :: cs) with
    | some cap => some cap
    | none => sensorsMatch cs

/-- Probe `tryVcgencmd` (ServerTemp_server.js lines 115-129): on
`!error && stdout`, match `/temp=([\d.]+)/` and `parseFloat` the capture;
otherwise fail with `vcgencmd failed`. -/
def tryVcgencmd (r : ExecResult) : Except String JSNum :=
  if r.error = none ∧ r.stdout ≠ "" then
    match vcgencmdMatch r.stdout.toList with
    | some cap => .ok (parseFloatQ (String.mk cap))
    | none => .error "vcgencmd failed"
  else .error "vcgencmd failed"

/-- Exact division of a rational by 1000, written as a `mkRat` so that it
is kernel-computable; `divBy1000_eq` shows it agrees with `· / 1000`. -/
def divBy1000 (q : ℚ) : ℚ := mkRat q.num (q.den * 1000)

/-- Probe `tryThermalZone` (lines 134-147): on `!error && stdout`, compute
`parseFloat(stdout) / 1000` and succeed only when the result is not `NaN`;
otherwise fail with `thermal_zone0 failed`. -/
def tryThermalZone (r : ExecResult) : Except String JSNum :=
  if r.error = none ∧ r.stdout ≠ "" then
    match parseFloatQ r.stdout with
    | some q => .ok (some (divBy1000 q))
    | none => .error "thermal_zone0 failed"
  else .error "thermal_zone0 failed"

/-- Probe `trySensors` (lines 152-166): on `!error && stdout`, match
`/Core \d+:\s+\+([\d.]+)°C/` and `parseFloat` the capture; otherwise fail
with `sensors failed`. -/
def trySensors (r : ExecResult) : Except String JSNum :=
  if r.error = none ∧ r.stdout ≠ "" then
    match sensorsMatch r.stdout.toList with
    | some cap => .ok (parseFloatQ (String.mk cap))
    | none => .error "sensors failed"
  else .error "sensors failed"

/-- The three sensing methods, in source order (lines 28-32). -/
inductive Method
  | vcgencmd
  | thermal_zone
  | sensors
deriving DecidableEq, Repr

/-- The `failedMethods` flag record (lines 28-32). -/
structure FailedMethods where
  vcgencmd : Bool
  thermal_zone : Bool
  sensors : Bool
deriving DecidableEq, Repr

/-- The coordinator's mutable probe bookkeeping: `failedMethods`
(lines 28-32) and `workingMethod` (line 35). -/
structure ProbeState where
  failedMethods : FailedMethods
  workingMethod : Option Method
deriving DecidableEq, Repr

/-- One cycle's probe environment: the `ExecResult` each probe command
would hand to its callback if invoked during this cycle. -/
abbrev Env := Method → ExecResult

/-- Dispatch to the probe implementing a method (the `switch` of
lines 54-64 routes exactly this way). -/
def runProbe (env : Env) (m : Method) : Except String JSNum :=
  match m with
  | .vcgencmd => tryVcgencmd (env .vcgencmd)
  | .thermal_zone => tryThermalZone (env .thermal_zone)
  | .sensors => trySensors (env .sensors)

/-- Number of methods whose failed flag is still unset; termination
measure for `tryNextMethod`. -/
def unfailedCount (f : FailedMethods) : Nat :=
  (if f.vcgencmd then 0 else 1) + (if f.thermal_zone then 0 else 1) +
    (if f.sensors then 0 else 1)

/-- Coordinator `tryNextMethod` (lines 74-110): try `vcgencmd`, then `thermal_zone`,
then `sensors`, skipping methods whose failed flag is set; a success sets
`workingMethod` and returns the value, a failure sets the method's failed
flag and re-enters `tryNextMethod`; with every flag set, fail with the
exhaustion error.  Besides the updated state and the result, the returned
list records which probes were invoked, in order. -/
def tryNextMethod (env : Env) (s : ProbeState) :
    ProbeState × List Method × Except String JSNum :=
  if s.failedMethods.vcgencmd = false then
    match tryVcgencmd (env .vcgencmd) with
    | .ok temp => ({ s with workingMethod := some .vcgencmd }, [.vcgencmd], .ok temp)
    | .error _ =>
      let (s', tr, res) :=
        tryNextMethod env { s with failedMethods := { s.failedMethods with vcgencmd := true } }
      (s', .vcgencmd :: tr, res)
  else if s.failedMethods.thermal_zone = false then
    match tryThermalZone (env .thermal_zone) with
    | .ok temp => ({ s with workingMethod := some .thermal_zone }, [.thermal_zone], .ok temp)
    | .error _ =>
      let (s', tr, res) :=
        tryNextMethod env { s with failedMethods := { s.failedMethods with thermal_zone := true } }
      (s', .thermal_zone :: tr, res)
  else if s.failedMethods.sensors = false then
    match trySensors (env .sensors) with
    | .ok temp => ({ s with workingMethod := some .sensors }, [.sensors], .ok temp)
    | .error _ =>
      let (s', tr, res) :=
        tryNextMethod env { s with failedMethods := { s.failedMethods with sensors := true } }
      (s', .sensors :: tr, res)
  else (s, [], .error "Unable to read temperature from system")
termination_by unfailedCount s.failedMethods
decreasing_by
  all_goals simp_all [unfailedCount]

/-- Coordinator entry `readTemperature` (lines 49-69): invoke the working method directly
when one is set (no state change), otherwise fall back to
`tryNextMethod`. -/
def readTemperature (env : Env) (s : ProbeState) :
    ProbeState × List Method × Except String JSNum :=
  match s.workingMethod with
  | some m => (s, [m], runProbe env m)
  | none => tryNextMethod env s

/-- The fixed probe priority order of the spec (A = vcgencmd, then
B = thermal_zone, then C = sensors). -/
def priorityOrder : List Method := [.vcgencmd, .thermal_zone, .sensors]

/-- Whether a method's failed flag is set. -/
def methodFailed (f : FailedMethods) : Method → Bool
  | .vcgencmd => f.vcgencmd
  | .thermal_zone => f.thermal_zone
  | .sensors => f.sensors

/-- Set a method's failed flag. -/
def setFailed (f : FailedMethods) : Method → FailedMethods
  | .vcgencmd => { f with vcgencmd := true }
  | .thermal_zone => { f with thermal_zone := true }
  | .sensors => { f with sensors := true }

/-- The probes still to be tried: the priority order with the
already-failed methods skipped. -/
def remainingOrder (f : FailedMethods) : List Method :=
  priorityOrder.filter (fun m => !(methodFailed f m))

/-- The claim-level acquisition walk: try the listed probes in order; on
the first success record it as the working method and return its value; on
each failure set that probe's failed flag and continue; with the list
exhausted, return the exhaustion error. -/
def specAcquire (env : Env) : List Method → ProbeState → ProbeState × List Method × Except String JSNum
  | [], s => (s, [], .error "Unable to read temperature from system")
  | m :: ms, s =>
    match runProbe env m with
    | .ok v => ({ s with workingMethod := some m }, [m], .ok v)
    | .error _ =>
      let (s', tr, r) := specAcquire env ms { s with failedMethods := setFailed s.failedMethods m }
      (s', m :: tr, r)

/-- The cache record `currentTemperature` (lines 38-43). -/
structure TemperatureReading where
  temperature : Option JSNum
  timestamp : Option Nat
  unit : String
  error : Option String
deriving DecidableEq, Repr

/-- Initial cache contents (lines 38-43): both `temperature` and `error`
are `null`, no timestamp, unit `C`. -/
def initialTemperature : TemperatureReading :=
  { temperature := none, timestamp := none, unit := "C", error := none }

/-- The module's mutable top-level state: `consoleLogged` (line 23),
`temperatureSupported` (line 24), `updateIntervalId` abstracted to the
boolean `intervalActive` (line 25), the probe bookkeeping and the cache. -/
structure ServerState where
  consoleLogged : Bool
  temperatureSupported : Bool
  intervalActive : Bool
  probeState : ProbeState
  currentTemperature : TemperatureReading
deriving DecidableEq, Repr

/-- State at process start, after module initialization has registered the
interval (line 251) and before the first acquisition callback runs. -/
def initState : ServerState :=
  { consoleLogged := false
    temperatureSupported := true
    intervalActive := true
    probeState := { failedMethods := ⟨false, false, false⟩, workingMethod := none }
    currentTemperature := initialTemperature }

/-- Cycle `updateTemperature` (lines 171-216) as one atomic acquisition cycle:
return unchanged when unsupported; otherwise run `readTemperature` and
overwrite the cache with the reading or the failure record; on a failure
in the first-ever cycle (`!consoleLogged`), clear the interval and set
`temperatureSupported = false`; every completed cycle sets
`consoleLogged`. -/
def updateTemperature (env : Env) (now : Nat) (st : ServerState) : ServerState :=
  if st.temperatureSupported = false then st
  else
    match readTemperature env st.probeState with
    | (ps, _, res) =>
      match res with
      | .error msg =>
        let st' := { st with
          probeState := ps
          currentTemperature :=
            { temperature := none, timestamp := some now, unit := "C", error := some msg } }
        if st.consoleLogged = false then
          { st' with temperatureSupported := false, intervalActive := false, consoleLogged := true }
        else { st' with consoleLogged := true }
      | .ok temp =>
        { st with
          probeState := ps
          currentTemperature :=
            { temperature := some temp, timestamp := some now, unit := "C", error := none }
          consoleLogged := true }

/-- One scheduler tick: the probe environment of that cycle and the value
`Date.now()` would return in it. -/
abbrev Cycle := Env × Nat

/-- A run of successive scheduler ticks, each one invocation of
`updateTemperature` (line 251 registers it as the interval callback). -/
def runCycles (cycles : List Cycle) (st : ServerState) : ServerState :=
  cycles.foldl (fun st c => updateTemperature c.1 c.2 st) st

/-- Body a response carries: the serialized cache record on success, the
error object otherwise. -/
inductive ResponseBody
  | json (t : TemperatureReading)
  | jsonError (error : String)
deriving DecidableEq, Repr

/-- The `/server_temp` handler (lines 231-239): default the header to
`NoPlugin` when missing or empty (JS `||` on a falsy string), answer 200
with the cache for the exact value `ServerTempPlugin`, else 403 with
`Unauthorised`. -/
def serverTempHandler (xPluginName : Option String) (t : TemperatureReading) :
    Nat × ResponseBody :=
  let pluginHeader :=
    match xPluginName with
    | some h => if h = "" then "NoPlugin" else h
    | none => "NoPlugin"
  if pluginHeader = "ServerTempPlugin" then (200, .json t)
  else (403, .jsonError "Unauthorised")

/-- What module initialization schedules or invokes. -/
inductive StartupAction
  | callNow (fn : String)
  | setTimeout (delayMs : Nat) (fn : String)
  | setInterval (periodMs : Nat) (fn : String)
deriving DecidableEq, Repr

/-- Server-side module initialization (ServerTemp_server.js lines
246-253): `updateTemperature()` is invoked synchronously at load
(line 248), then the ten-minute interval is registered (line 251). -/
def serverStartup : List StartupAction :=
  [.callNow "updateTemperature", .setInterval 600000 "updateTemperature"]

/-- Client-side `init` (ServerTemp.js lines 122-136): first fetch after a
fixed one-second delay, plus an independent ten-minute interval. -/
def clientStartup : List StartupAction :=
  [.setTimeout 1000 "fetchTemperature", .setInterval 600000 "fetchTemperature"]

/-- Scheduler state `Disabled`: reading unsupported and interval cleared. -/
def isDisabled (st : ServerState) : Bool :=
  !st.temperatureSupported && !st.intervalActive

/-- Scheduler state `Active`: reading supported and interval ticking. -/
def isActive (st : ServerState) : Bool :=
  st.temperatureSupported && st.intervalActive

/-- Pointwise implication of failed flags: every method failed in `f` is
still failed in `g`. -/
def flagsLe (f g : FailedMethods) : Bool :=
  (!f.vcgencmd || g.vcgencmd) && (!f.thermal_zone || g.thermal_zone) &&
    (!f.sensors || g.sensors)

/-- Exactly one of `temperature` and `error` is populated. -/
def cacheSettled (t : TemperatureReading) : Bool :=
  (t.temperature.isSome && t.error.isNone) || (t.temperature.isNone && t.error.isSome)

/-- Whether an acquisition result is a failure. -/
def isErr (r : Except String JSNum) : Bool :=
  match r with
  | .error _ => true
  | .ok _ => false

/-- A cycle environment in which every probe's command fails. -/
def envAllFail : Env := fun _ => ⟨some "spawn ENOENT", ""⟩

/-- A cycle environment in which `vcgencmd` produces a good reading. -/
def envGood : Env := fun m =>
  match m with
  | .vcgencmd => ⟨none, "temp=45.6\x27C"⟩
  | _ => ⟨some "spawn ENOENT", ""⟩

/-- Refinement: `tryNextMethod` never consults `workingMethod` and walks exactly the
un-failed probes in priority order: it coincides with the claim-level
walk over `remainingOrder`. -/
theorem tryNextMethod_spec (env : Env) (s : ProbeState) :
    tryNextMethod env s = specAcquire env (remainingOrder s.failedMethods) s := by
  obtain ⟨⟨v, tz, sn⟩, w⟩ := s
  rcases hv : tryVcgencmd (env .vcgencmd) with mv | ev <;>
  rcases ht : tryThermalZone (env .thermal_zone) with mt | et <;>
  rcases hs : trySensors (env .sensors) with msv | es <;>
  cases v <;> cases tz <;> cases sn <;>
  simp [tryNextMethod.eq_def, hv, ht, hs, specAcquire, runProbe, setFailed,
    remainingOrder, priorityOrder, methodFailed]

/-- Justification that `divBy1000` is exact division by 1000. -/
lemma divBy1000_eq (q : ℚ) : divBy1000 q = q / 1000 := by
  rw [divBy1000, Rat.mkRat_eq_div]
  push_cast
  rw [div_mul_eq_div_div, Rat.num_div_den]

/-- Probe `tryVcgencmd` fails only with its own fixed message. -/
lemma tryVcgencmd_error_msg (r : ExecResult) (msg : String)
    (h : tryVcgencmd r = .error msg) : msg = "vcgencmd failed" := by
  unfold tryVcgencmd at h
  split at h
  · split at h <;> simp_all
  · simp_all

/-- Probe `tryThermalZone` fails only with its own fixed message. -/
lemma tryThermalZone_error_msg (r : ExecResult) (msg : String)
    (h : tryThermalZone r = .error msg) : msg = "thermal_zone0 failed" := by
  unfold tryThermalZone at h
  split at h
  · split at h <;> simp_all
  · simp_all

/-- Probe `trySensors` fails only with its own fixed message. -/
lemma trySensors_error_msg (r : ExecResult) (msg : String)
    (h : trySensors r = .error msg) : msg = "sensors failed" := by
  unfold trySensors at h
  split at h
  · split at h <;> simp_all
  · simp_all

/-- A probe failure message is never the coordinator's exhaustion
message. -/
lemma runProbe_error_ne (env : Env) (m : Method) (msg : String)
    (h : runProbe env m = .error msg) :
    msg ≠ "Unable to read temperature from system" := by
  cases m
  · rw [tryVcgencmd_error_msg _ _ h]; decide
  · rw [tryThermalZone_error_msg _ _ h]; decide
  · rw [trySensors_error_msg _ _ h]; decide

lemma flagsLe_refl (f : FailedMethods) : flagsLe f f = true := by
  rcases f with ⟨a, b, c⟩
  cases a <;> cases b <;> cases c <;> rfl

lemma flagsLe_trans {f g h : FailedMethods} (h1 : flagsLe f g = true)
    (h2 : flagsLe g h = true) : flagsLe f h = true := by
  rcases f with ⟨a1, b1, c1⟩
  rcases g with ⟨a2, b2, c2⟩
  rcases h with ⟨a3, b3, c3⟩
  revert h1 h2
  cases a1 <;> cases b1 <;> cases c1 <;> cases a2 <;> cases b2 <;> cases c2 <;>
    cases a3 <;> cases b3 <;> cases c3 <;> decide

lemma flagsLe_setFailed (f : FailedMethods) (m : Method) :
    flagsLe f (setFailed f m) = true := by
  cases m <;> rcases f with ⟨a, b, c⟩ <;> cases a <;> cases b <;> cases c <;> rfl

/-- The claim-level walk only ever adds failed flags. -/
lemma specAcquire_flags (env : Env) (ms : List Method) (s : ProbeState) :
    flagsLe s.failedMethods (specAcquire env ms s).1.failedMethods = true := by
  induction ms generalizing s with
  | nil => exact flagsLe_refl _
  | cons m ms ih =>
    simp only [specAcquire]
    cases runProbe env m with
    | ok v => exact flagsLe_refl _
    | error e =>
      exact flagsLe_trans (flagsLe_setFailed s.failedMethods m)
        (ih { s with failedMethods := setFailed s.failedMethods m })

/-- A successful claim-level walk always records a working method. -/
lemma specAcquire_ok_working (env : Env) (ms : List Method) (s : ProbeState)
    (v : JSNum) (h : (specAcquire env ms s).2.2 = .ok v) :
    ∃ m, (specAcquire env ms s).1.workingMethod = some m := by
  induction ms generalizing s with
  | nil => simp [specAcquire] at h
  | cons m ms ih =>
    simp only [specAcquire] at h ⊢
    cases hm : runProbe env m with
    | ok w => exact ⟨m, rfl⟩
    | error e => rw [hm] at h; exact ih _ h

/-- The claim-level walk fails only with a message produced by one of the
probes it tried, or with the exhaustion message. -/
lemma specAcquire_error_msg (env : Env) (ms : List Method) (s : ProbeState)
    (msg : String) (h : (specAcquire env ms s).2.2 = .error msg) :
    (∃ m, runProbe env m = .error msg) ∨ msg = "Unable to read temperature from system" := by
  induction ms generalizing s with
  | nil =>
    right
    simpa [specAcquire] using h.symm
  | cons m ms ih =>
    simp only [specAcquire] at h
    cases hm : runProbe env m with
    | ok w => rw [hm] at h; simp at h
    | error e => rw [hm] at h; exact ih _ h

/-- A failed claim-level walk leaves `workingMethod` untouched. -/
lemma specAcquire_error_working (env : Env) (ms : List Method) (s : ProbeState)
    (msg : String) (h : (specAcquire env ms s).2.2 = .error msg) :
    (specAcquire env ms s).1.workingMethod = s.workingMethod := by
  induction ms generalizing s with
  | nil => simp [specAcquire]
  | cons m ms ih =>
    simp only [specAcquire] at h ⊢
    cases hm : runProbe env m with
    | ok w => rw [hm] at h; simp at h
    | error e => rw [hm] at h; exact ih _ h

/-- When reading is unsupported, a cycle is a no-op (lines 172-175). -/
lemma updateTemperature_unsupported (e : Env) (t : Nat) (st : ServerState)
    (h : st.temperatureSupported = false) : updateTemperature e t st = st := by
  simp [updateTemperature, h]

/-- A run of cycles from an unsupported state is a no-op. -/
lemma runCycles_unsupported (cycles : List Cycle) (st : ServerState)
    (h : st.temperatureSupported = false) : runCycles cycles st = st := by
  induction cycles with
  | nil => rfl
  | cons c cs ih =>
    show runCycles cs (updateTemperature c.1 c.2 st) = st
    rw [updateTemperature_unsupported c.1 c.2 st h]
    exact ih

/-- Full characterization of a supported cycle: the success shape, and the
failure shape depending on whether this is the first-ever cycle. -/
lemma updateTemperature_cases (e : Env) (t : Nat) (st : ServerState)
    (hs : st.temperatureSupported = true) :
    (∀ v, (readTemperature e st.probeState).2.2 = .ok v →
       updateTemperature e t st =
         { st with probeState := (readTemperature e st.probeState).1
                   currentTemperature := ⟨some v, some t, "C", none⟩
                   consoleLogged := true }) ∧
    (∀ msg, (readTemperature e st.probeState).2.2 = .error msg →
       updateTemperature e t st =
         if st.consoleLogged = false then
           { st with probeState := (readTemperature e st.probeState).1
                     currentTemperature := ⟨none, some t, "C", some msg⟩
                     consoleLogged := true
                     temperatureSupported := false
                     intervalActive := false }
         else
           { st with probeState := (readTemperature e st.probeState).1
                     currentTemperature := ⟨none, some t, "C", some msg⟩
                     consoleLogged := true }) := by
  obtain ⟨cl, ts, ia, ps0, ct⟩ := st
  subst hs
  rcases hr : readTemperature e ps0 with ⟨ps, tr, res⟩
  unfold updateTemperature
  simp only [hr]
  cases res with
  | ok v =>
    refine ⟨fun w hw => ?_, fun msg hmsg => by simp at hmsg⟩
    simp at hw
    subst hw
    simp
  | error msg =>
    refine ⟨fun w hw => by simp at hw, fun m hm => ?_⟩
    simp at hm
    subst hm
    cases cl <;> simp

/-- Once `consoleLogged` is set, a cycle keeps it set and leaves
`temperatureSupported` and the interval alone (the disable branch of
lines 188-195 requires `!consoleLogged`). -/
lemma updateTemperature_logged (e : Env) (t : Nat) (st : ServerState)
    (h : st.consoleLogged = true) :
    (updateTemperature e t st).consoleLogged = true ∧
    (updateTemperature e t st).temperatureSupported = st.temperatureSupported ∧
    (updateTemperature e t st).intervalActive = st.intervalActive := by
  cases hs : st.temperatureSupported with
  | false => rw [updateTemperature_unsupported e t st hs]; exact ⟨h, hs, rfl⟩
  | true =>
    obtain ⟨hok, herr⟩ := updateTemperature_cases e t st hs
    cases hr : (readTemperature e st.probeState).2.2 with
    | ok v => rw [hok v hr]; simp [hs]
    | error msg => rw [herr msg hr]; simp [h, hs]

/-- Runs of cycles keep `consoleLogged` set and the scheduler flags
unchanged once the first cycle has been logged. -/
lemma runCycles_logged (cycles : List Cycle) (st : ServerState)
    (h : st.consoleLogged = true) :
    (runCycles cycles st).consoleLogged = true ∧
    (runCycles cycles st).temperatureSupported = st.temperatureSupported ∧
    (runCycles cycles st).intervalActive = st.intervalActive := by
  induction cycles generalizing st with
  | nil => exact ⟨h, rfl, rfl⟩
  | cons c cs ih =>
    have hstep := updateTemperature_logged c.1 c.2 st h
    have hrest := ih (updateTemperature c.1 c.2 st) hstep.1
    refine ⟨hrest.1, ?_, ?_⟩
    · show (runCycles cs (updateTemperature c.1 c.2 st)).temperatureSupported = _
      rw [hrest.2.1, hstep.2.1]
    · show (runCycles cs (updateTemperature c.1 c.2 st)).intervalActive = _
      rw [hrest.2.2, hstep.2.2]

/-- One acquisition only ever adds failed flags. -/
lemma readTemperature_flags (e : Env) (s : ProbeState) :
    flagsLe s.failedMethods (readTemperature e s).1.failedMethods = true := by
  cases hw : s.workingMethod with
  | some m => simp [readTemperature, hw, flagsLe_refl]
  | none =>
    have hrw : readTemperature e s = tryNextMethod e s := by simp [readTemperature, hw]
    rw [hrw, tryNextMethod_spec]
    exact specAcquire_flags e _ s

/-- One cycle only ever adds failed flags. -/
lemma updateTemperature_flags (e : Env) (t : Nat) (st : ServerState) :
    flagsLe st.probeState.failedMethods (updateTemperature e t st).probeState.failedMethods = true := by
  cases hs : st.temperatureSupported with
  | false => rw [updateTemperature_unsupported e t st hs]; exact flagsLe_refl _
  | true =>
    obtain ⟨hok, herr⟩ := updateTemperature_cases e t st hs
    cases hr : (readTemperature e st.probeState).2.2 with
    | ok v => rw [hok v hr]; simpa using readTemperature_flags e st.probeState
    | error msg =>
      rw [herr msg hr]
      split <;> simpa using readTemperature_flags e st.probeState

/-- A whole run of cycles only ever adds failed flags. -/
lemma runCycles_flags (cycles : List Cycle) (st : ServerState) :
    flagsLe st.probeState.failedMethods (runCycles cycles st).probeState.failedMethods = true := by
  induction cycles generalizing st with
  | nil => exact flagsLe_refl _
  | cons c cs ih =>
    exact flagsLe_trans (updateTemperature_flags c.1 c.2 st)
      (ih (updateTemperature c.1 c.2 st))

/-- The post-first-cycle invariant: a working method is recorded or the
scheduler is permanently disabled.  It is preserved by every cycle. -/
lemma updateTemperature_inv (e : Env) (t : Nat) (st : ServerState)
    (h : st.probeState.workingMethod ≠ none ∨ st.temperatureSupported = false) :
    (updateTemperature e t st).probeState.workingMethod ≠ none ∨
      (updateTemperature e t st).temperatureSupported = false := by
  cases hs : st.temperatureSupported with
  | false => rw [updateTemperature_unsupported e t st hs]; right; exact hs
  | true =>
    rcases h with h | h
    · rcases hw : st.probeState.workingMethod with _ | m
      · exact absurd hw h
      · have hread : readTemperature e st.probeState = (st.probeState, [m], runProbe e m) := by
          simp [readTemperature, hw]
        obtain ⟨hok, herr⟩ := updateTemperature_cases e t st hs
        cases hr : (readTemperature e st.probeState).2.2 with
        | ok v => rw [hok v hr]; left; simp [hread, hw]
        | error msg =>
          rw [herr msg hr]
          split <;> (left; simp [hread, hw])
    · rw [hs] at h; cases h

/-- The invariant is established by the very first cycle. -/
lemma first_cycle_inv (e : Env) (t : Nat) :
    (updateTemperature e t initState).probeState.workingMethod ≠ none ∨
      (updateTemperature e t initState).temperatureSupported = false := by
  have hs : initState.temperatureSupported = true := rfl
  have hw : initState.probeState.workingMethod = none := rfl
  have hrw : readTemperature e initState.probeState =
      specAcquire e (remainingOrder initState.probeState.failedMethods) initState.probeState := by
    simp [readTemperature, hw, tryNextMethod_spec]
  obtain ⟨hok, herr⟩ := updateTemperature_cases e t initState hs
  cases hr : (readTemperature e initState.probeState).2.2 with
  | ok v =>
    rw [hok v hr]
    left
    rw [hrw] at hr ⊢
    obtain ⟨m, hm⟩ := specAcquire_ok_working e _ _ v hr
    simp [hm]
  | error msg =>
    rw [herr msg hr]
    right
    simp [show initState.consoleLogged = false from rfl]

/-- C1: for every acquisition cycle that starts with `workingMethod`
unset, the coordinator tries the probes in the fixed order vcgencmd,
thermal_zone, sensors, skipping every probe whose failed flag is already
set; the first probe success is recorded as `workingMethod` and its value
returned, and each probe failure sets that probe's failed flag before the
next un-failed probe is tried: the cycle coincides exactly (state, probe
invocation order, and result) with the claim-level walk `specAcquire`
over the un-failed priority order. -/
theorem C1_fallback_order (env : Env) (s : ProbeState)
    (h : s.workingMethod = none) :
    readTemperature env s = specAcquire env (remainingOrder s.failedMethods) s := by
  simp [readTemperature, h, tryNextMethod_spec]

/-- C1 witness at a concrete input: fresh probe state, probes tried from
vcgencmd on. -/
theorem C1_fallback_order_witness :
    (⟨⟨false, false, false⟩, none⟩ : ProbeState).workingMethod = none ∧
    readTemperature envGood ⟨⟨false, false, false⟩, none⟩ =
      specAcquire envGood (remainingOrder ⟨false, false, false⟩) ⟨⟨false, false, false⟩, none⟩ :=
  ⟨rfl, C1_fallback_order envGood ⟨⟨false, false, false⟩, none⟩ rfl⟩

/-- C3: for every cycle in which `workingMethod` is set, the coordinator
invokes only that one probe (the invocation trace is exactly `[m]`) and
returns the probe state unchanged — in particular a failing working
method is neither cleared nor added to the failed set. -/
theorem C3_working_method_frame (env : Env) (s : ProbeState) (m : Method)
    (h : s.workingMethod = some m) :
    readTemperature env s = (s, [m], runProbe env m) := by
  simp [readTemperature, h]

/-- C3 witness at a concrete input: the working method vcgencmd fails,
yet the probe state comes back identical. -/
theorem C3_working_method_frame_witness :
    (⟨⟨false, false, false⟩, some .vcgencmd⟩ : ProbeState).workingMethod = some .vcgencmd ∧
    readTemperature envAllFail ⟨⟨false, false, false⟩, some .vcgencmd⟩ =
      (⟨⟨false, false, false⟩, some .vcgencmd⟩, [.vcgencmd], .error "vcgencmd failed") := by
  refine ⟨rfl, ?_⟩
  rw [C3_working_method_frame envAllFail ⟨⟨false, false, false⟩, some .vcgencmd⟩ .vcgencmd rfl]
  decide

/-- C5: when all three probes are marked failed and no working method is
set, the coordinator invokes no probe (empty trace) and returns the
exhaustion error. -/
theorem C5_exhaustion (env : Env) (s : ProbeState)
    (hf : s.failedMethods = ⟨true, true, true⟩) (hw : s.workingMethod = none) :
    readTemperature env s = (s, [], .error "Unable to read temperature from system") := by
  have h1 : readTemperature env s = tryNextMethod env s := by simp [readTemperature, hw]
  rw [h1, tryNextMethod_spec, hf]
  rfl

/-- C5 witness at a concrete input: even with vcgencmd able to succeed,
no probe is invoked once all flags are set. -/
theorem C5_exhaustion_witness :
    (⟨⟨true, true, true⟩, none⟩ : ProbeState).failedMethods = ⟨true, true, true⟩ ∧
    (⟨⟨true, true, true⟩, none⟩ : ProbeState).workingMethod = none ∧
    readTemperature envGood ⟨⟨true, true, true⟩, none⟩ =
      (⟨⟨true, true, true⟩, none⟩, [], .error "Unable to read temperature from system") :=
  ⟨rfl, rfl, C5_exhaustion envGood ⟨⟨true, true, true⟩, none⟩ rfl rfl⟩

/-- C7: the endpoint answers 200 with the cache record exactly when the
X-Plugin-Name header equals ServerTempPlugin, and 403 with an
Unauthorised error body for any other value, including a missing
header. -/
theorem C7_endpoint_auth (h : Option String) (t : TemperatureReading) :
    (serverTempHandler h t = (200, .json t) ↔ h = some "ServerTempPlugin") ∧
    (h ≠ some "ServerTempPlugin" →
      serverTempHandler h t = (403, .jsonError "Unauthorised")) := by
  have hnone : serverTempHandler none t = (403, .jsonError "Unauthorised") := rfl
  constructor
  · constructor
    · intro hh
      rcases h with _ | s
      · rw [hnone] at hh; simp at hh
      · by_cases hs : s = ""
        · subst hs; rw [show serverTempHandler (some "") t =
            (403, .jsonError "Unauthorised") from rfl] at hh; simp at hh
        · by_cases hsp : s = "ServerTempPlugin"
          · rw [hsp]
          · simp [serverTempHandler, hs, hsp] at hh
    · intro hh
      subst hh
      rfl
  · intro hne
    rcases h with _ | s
    · exact hnone
    · by_cases hs : s = ""
      · subst hs; rfl
      · have hsp : s ≠ "ServerTempPlugin" := fun c => hne (by rw [c])
        simp [serverTempHandler, hs, hsp]

/-- C7 witness at concrete inputs: a missing header is rejected with
403. -/
theorem C7_endpoint_auth_witness :
    (none : Option String) ≠ some "ServerTempPlugin" ∧
    serverTempHandler none initialTemperature = (403, .jsonError "Unauthorised") :=
  ⟨by simp, (C7_endpoint_auth none initialTemperature).2 (by simp)⟩

/-- C8 counterexample: server-side module initialization invokes the
first acquisition synchronously at load — `serverStartup` contains a
`callNow` of `updateTemperature` and schedules no delayed timeout at all,
contradicting the claimed fixed delay before the first acquisition. -/
theorem C8_startup_counterexample :
    StartupAction.callNow "updateTemperature" ∈ serverStartup ∧
    (serverStartup.filter fun a =>
      match a with
      | .setTimeout _ _ => true
      | _ => false) = [] := by
  constructor
  · exact List.mem_cons_self _ _
  · rfl

/-- C8 amended: on process start the server invokes the first acquisition
immediately (synchronously at module load) and registers the recurring
ten-minute interval independently at startup; the one-second delay before
a first request exists only in the client poller's `init`. -/
theorem C8_startup_amended :
    serverStartup = [.callNow "updateTemperature", .setInterval 600000 "updateTemperature"] ∧
    clientStartup = [.setTimeout 1000 "fetchTemperature", .setInterval 600000 "fetchTemperature"] :=
  ⟨rfl, rfl⟩

/-- C6: well-formed probe outputs parse to the exact expected Celsius
values (vcgencmd output with `temp=45.6` to 45.6, thermal-zone `42123` to
42.123, `Core 0: +38.0°C` to 38.0), and each probe fails when its command
errors, when it
produces no output, when its pattern does not match, or — for the
thermal zone — when the value parses as not-a-number. -/
theorem C6_probe_parsers :
    (tryVcgencmd ⟨none, "temp=45.6\x27C"⟩ = .ok (some (456 / 10 : ℚ))) ∧
    (tryThermalZone ⟨none, "42123"⟩ = .ok (some (42123 / 1000 : ℚ))) ∧
    (trySensors ⟨none, "Core 0: +38.0°C"⟩ = .ok (some (38 : ℚ))) ∧
    (∀ r : ExecResult, r.error ≠ none ∨ r.stdout = "" →
      tryVcgencmd r = .error "vcgencmd failed" ∧
      tryThermalZone r = .error "thermal_zone0 failed" ∧
      trySensors r = .error "sensors failed") ∧
    (∀ s : String, vcgencmdMatch s.toList = none →
      tryVcgencmd ⟨none, s⟩ = .error "vcgencmd failed") ∧
    (∀ s : String, parseFloatQ s = none →
      tryThermalZone ⟨none, s⟩ = .error "thermal_zone0 failed") ∧
    (∀ s : String, sensorsMatch s.toList = none →
      trySensors ⟨none, s⟩ = .error "sensors failed") := by
  refine ⟨?_, ?_, ?_, ?_, ?_, ?_, ?_⟩
  · rw [show (456 / 10 : ℚ) = mkRat 456 10 from by rw [Rat.mkRat_eq_div]; norm_num]
    decide
  · rw [show (42123 / 1000 : ℚ) = mkRat 42123 1000 from by rw [Rat.mkRat_eq_div]; norm_num]
    decide
  · rw [show (38 : ℚ) = mkRat 38 1 from by rw [Rat.mkRat_eq_div]; norm_num]
    decide
  · intro r hor
    have hcond : ¬(r.error = none ∧ r.stdout ≠ "") := by
      rcases hor with he | hs
      · exact fun hc => he hc.1
      · exact fun hc => hc.2 hs
    refine ⟨?_, ?_, ?_⟩
    · simp only [tryVcgencmd]; rw [if_neg hcond]
    · simp only [tryThermalZone]; rw [if_neg hcond]
    · simp only [trySensors]; rw [if_neg hcond]
  · intro s hnm
    by_cases hs : s = ""
    · subst hs; rfl
    · simp only [String.toList] at hnm
      simp [tryVcgencmd, hs, hnm]
  · intro s hnm
    by_cases hs : s = ""
    · subst hs; rfl
    · simp [tryThermalZone, hs, hnm]
  · intro s hnm
    by_cases hs : s = ""
    · subst hs; rfl
    · simp only [String.toList] at hnm
      simp [trySensors, hs, hnm]

/-- C6 witness at concrete inputs: a failed command fails every probe,
and non-numeric thermal-zone content fails the thermal probe. -/
theorem C6_probe_parsers_witness :
    (tryVcgencmd ⟨some "spawn ENOENT", ""⟩ = .error "vcgencmd failed" ∧
     tryThermalZone ⟨some "spawn ENOENT", ""⟩ = .error "thermal_zone0 failed" ∧
     trySensors ⟨some "spawn ENOENT", ""⟩ = .error "sensors failed") ∧
    tryThermalZone ⟨none, "abc"⟩ = .error "thermal_zone0 failed" :=
  ⟨C6_probe_parsers.2.2.2.1 ⟨some "spawn ENOENT", ""⟩ (Or.inl (by simp)),
   C6_probe_parsers.2.2.2.2.2.1 "abc" (by decide)⟩

/-- C9: the failed set grows monotonically — through a single coordinator
invocation, a single cycle, and any run of cycles, a failed flag that is
set is never cleared. -/
theorem C9_failed_monotone (env : Env) (s : ProbeState) (e : Env) (t : Nat)
    (st : ServerState) (cycles : List Cycle) :
    flagsLe s.failedMethods (readTemperature env s).1.failedMethods = true ∧
    flagsLe st.probeState.failedMethods
      (updateTemperature e t st).probeState.failedMethods = true ∧
    flagsLe st.probeState.failedMethods
      (runCycles cycles st).probeState.failedMethods = true :=
  ⟨readTemperature_flags env s, updateTemperature_flags e t st, runCycles_flags cycles st⟩

/-- A cycle run from a supported state always leaves a settled cache. -/
lemma updateTemperature_supported_settled (e : Env) (t : Nat) (st : ServerState)
    (hs : st.temperatureSupported = true) :
    cacheSettled (updateTemperature e t st).currentTemperature = true := by
  obtain ⟨hok, herr⟩ := updateTemperature_cases e t st hs
  cases hr : (readTemperature e st.probeState).2.2 with
  | ok v => rw [hok v hr]; rfl
  | error msg => rw [herr msg hr]; split <;> rfl

/-- Once settled, the cache stays settled through any cycle. -/
lemma updateTemperature_settled_preserved (e : Env) (t : Nat) (st : ServerState)
    (h : cacheSettled st.currentTemperature = true) :
    cacheSettled (updateTemperature e t st).currentTemperature = true := by
  cases hs : st.temperatureSupported with
  | false => rw [updateTemperature_unsupported e t st hs]; exact h
  | true => exact updateTemperature_supported_settled e t st hs

/-- Once settled, the cache stays settled through any run of cycles. -/
lemma runCycles_settled (cycles : List Cycle) (st : ServerState)
    (h : cacheSettled st.currentTemperature = true) :
    cacheSettled (runCycles cycles st).currentTemperature = true := by
  induction cycles generalizing st with
  | nil => exact h
  | cons c cs ih =>
    exact ih (updateTemperature c.1 c.2 st)
      (updateTemperature_settled_preserved c.1 c.2 st h)

/-- C4: after any completed cycle the cache holds exactly one of
temperature and error (a success stores a numeric temperature and null
error, a failure a null temperature and non-null error); both fields are
null only in the pre-initialization cache. -/
theorem C4_cache_exclusive (c : Cycle) (cycles : List Cycle) (e : Env) (t : Nat)
    (st : ServerState) :
    cacheSettled (runCycles (c :: cycles) initState).currentTemperature = true ∧
    (initState.currentTemperature.temperature = none ∧
     initState.currentTemperature.error = none) ∧
    (st.temperatureSupported = true →
      (∀ v, (readTemperature e st.probeState).2.2 = .ok v →
        (updateTemperature e t st).currentTemperature = ⟨some v, some t, "C", none⟩) ∧
      (∀ msg, (readTemperature e st.probeState).2.2 = .error msg →
        (updateTemperature e t st).currentTemperature = ⟨none, some t, "C", some msg⟩)) := by
  refine ⟨?_, ⟨rfl, rfl⟩, ?_⟩
  · exact runCycles_settled cycles _
      (updateTemperature_supported_settled c.1 c.2 initState rfl)
  · intro hs
    obtain ⟨hok, herr⟩ := updateTemperature_cases e t st hs
    constructor
    · intro v hv; rw [hok v hv]
    · intro msg hmsg; rw [herr msg hmsg]; split <;> rfl

/-- Concrete evaluation of a first cycle under `envGood`: vcgencmd
succeeds with 45.6 and becomes the working method. -/
lemma updGood_eval (t : Nat) : updateTemperature envGood t initState =
    { consoleLogged := true, temperatureSupported := true, intervalActive := true,
      probeState := ⟨⟨false, false, false⟩, some .vcgencmd⟩,
      currentTemperature := ⟨some (some (mkRat 456 10)), some t, "C", none⟩ } := by
  obtain ⟨hok, herr⟩ := updateTemperature_cases envGood t initState rfl
  have hread : readTemperature envGood initState.probeState =
      specAcquire envGood (remainingOrder initState.probeState.failedMethods)
        initState.probeState := by
    rw [show readTemperature envGood initState.probeState =
      tryNextMethod envGood initState.probeState from rfl, tryNextMethod_spec]
  have hval : (readTemperature envGood initState.probeState).2.2 =
      .ok (some (mkRat 456 10)) := by
    rw [hread]; decide
  rw [hok _ hval, hread]
  rfl

/-- Concrete evaluation of a first cycle under `envAllFail`: every probe
fails and the scheduler disables itself with the exhaustion error. -/
lemma updAllFail_eval (t : Nat) : updateTemperature envAllFail t initState =
    { consoleLogged := true, temperatureSupported := false, intervalActive := false,
      probeState := ⟨⟨true, true, true⟩, none⟩,
      currentTemperature :=
        ⟨none, some t, "C", some "Unable to read temperature from system"⟩ } := by
  obtain ⟨hok, herr⟩ := updateTemperature_cases envAllFail t initState rfl
  have hread : readTemperature envAllFail initState.probeState =
      specAcquire envAllFail (remainingOrder initState.probeState.failedMethods)
        initState.probeState := by
    rw [show readTemperature envAllFail initState.probeState =
      tryNextMethod envAllFail initState.probeState from rfl, tryNextMethod_spec]
  have hval : (readTemperature envAllFail initState.probeState).2.2 =
      .error "Unable to read temperature from system" := by
    rw [hread]; decide
  rw [herr _ hval, hread]
  rfl

/-- C4 witness at concrete inputs: after a successful first cycle the
cache is settled, and a failing later cycle stores the null temperature
and the probe's error message. -/
theorem C4_cache_exclusive_witness :
    cacheSettled (runCycles [(envGood, 7)] initState).currentTemperature = true ∧
    (updateTemperature envAllFail 9
        ({ consoleLogged := true, temperatureSupported := true, intervalActive := true,
           probeState := ⟨⟨false, false, false⟩, some .vcgencmd⟩,
           currentTemperature := ⟨some (some (mkRat 456 10)), some 7, "C", none⟩ } :
          ServerState)).currentTemperature =
      ⟨none, some 9, "C", some "vcgencmd failed"⟩ := by
  have h := C4_cache_exclusive (envGood, 7) [] envAllFail 9
    { consoleLogged := true, temperatureSupported := true, intervalActive := true,
      probeState := ⟨⟨false, false, false⟩, some .vcgencmd⟩,
      currentTemperature := ⟨some (some (mkRat 456 10)), some 7, "C", none⟩ }
  exact ⟨h.1, (h.2.2 rfl).2 "vcgencmd failed" (by decide)⟩

/-- C2: the scheduler reaches the terminal Disabled state exactly when
the very first cycle fails; a Disabled scheduler never changes again (no
further cache updates); and when the first cycle succeeds, any later
failing cycle writes its error into the cache while the scheduler stays
Active and ticking. -/
theorem C2_first_failure_disables (e1 : Env) (t1 : Nat) (rest : List Cycle)
    (e : Env) (t : Nat) :
    (isDisabled (updateTemperature e1 t1 initState) = true ↔
      isErr (readTemperature e1 initState.probeState).2.2 = true) ∧
    (isDisabled (updateTemperature e1 t1 initState) = true →
      runCycles rest (updateTemperature e1 t1 initState) =
        updateTemperature e1 t1 initState) ∧
    (isErr (readTemperature e1 initState.probeState).2.2 = false →
      isActive (runCycles rest (updateTemperature e1 t1 initState)) = true ∧
      ∀ msg,
        (readTemperature e
            (runCycles rest (updateTemperature e1 t1 initState)).probeState).2.2 =
          .error msg →
        (updateTemperature e t
            (runCycles rest (updateTemperature e1 t1 initState))).currentTemperature.error =
          some msg ∧
        isActive (updateTemperature e t
            (runCycles rest (updateTemperature e1 t1 initState))) = true) := by
  obtain ⟨hok, herr⟩ := updateTemperature_cases e1 t1 initState rfl
  cases hr : (readTemperature e1 initState.probeState).2.2 with
  | ok v =>
    have hst1 := hok v hr
    have hlog : (updateTemperature e1 t1 initState).consoleLogged = true := by
      rw [hst1]
    have hsup : (updateTemperature e1 t1 initState).temperatureSupported = true := by
      rw [hst1]; rfl
    have hint : (updateTemperature e1 t1 initState).intervalActive = true := by
      rw [hst1]; rfl
    refine ⟨?_, ?_, ?_⟩
    · rw [hst1]; simp [isDisabled, isErr, initState]
    · intro hd; rw [hst1] at hd; simp [isDisabled, initState] at hd
    · intro _
      obtain ⟨g1, g2, g3⟩ := runCycles_logged rest _ hlog
      have hsup2 : (runCycles rest (updateTemperature e1 t1 initState)).temperatureSupported
          = true := by rw [g2, hsup]
      have hint2 : (runCycles rest (updateTemperature e1 t1 initState)).intervalActive
          = true := by rw [g3, hint]
      refine ⟨by simp [isActive, hsup2, hint2], ?_⟩
      intro msg hmsg
      obtain ⟨hok2, herr2⟩ := updateTemperature_cases e t _ hsup2
      rw [herr2 msg hmsg, if_neg (by rw [g1]; simp)]
      exact ⟨rfl, by simp [isActive, hsup2, hint2]⟩
  | error msg0 =>
    have hcl : initState.consoleLogged = false := rfl
    have hst1 := herr msg0 hr
    rw [if_pos hcl] at hst1
    refine ⟨?_, ?_, ?_⟩
    · rw [hst1]; simp [isDisabled, isErr]
    · intro _
      rw [hst1]
      exact runCycles_unsupported rest _ rfl
    · intro hf; simp [isErr] at hf

/-- C2 witness at concrete inputs: a failing first cycle disables the
scheduler and a later tick leaves the state untouched. -/
theorem C2_first_failure_disables_witness :
    isDisabled (updateTemperature envAllFail 1 initState) = true ∧
    runCycles [(envGood, 2)] (updateTemperature envAllFail 1 initState) =
      updateTemperature envAllFail 1 initState := by
  have h := C2_first_failure_disables envAllFail 1 [(envGood, 2)] envGood 2
  have hval : isErr (readTemperature envAllFail initState.probeState).2.2 = true := by
    rw [show readTemperature envAllFail initState.probeState =
      tryNextMethod envAllFail initState.probeState from rfl, tryNextMethod_spec]
    decide
  exact ⟨h.1.mpr hval, h.2.1 (h.1.mpr hval)⟩

/-- With the invariant in force, a cycle whose cache would show the
exhaustion error must have been a no-op: with a working method set the
only recordable failures are probe messages, and with the scheduler
disabled nothing is written. -/
lemma updateTemperature_no_exhaust (e : Env) (t : Nat) (st : ServerState)
    (h : st.probeState.workingMethod ≠ none ∨ st.temperatureSupported = false)
    (hex : (updateTemperature e t st).currentTemperature.error =
      some "Unable to read temperature from system") :
    updateTemperature e t st = st := by
  cases hs : st.temperatureSupported with
  | false => exact updateTemperature_unsupported e t st hs
  | true =>
    rcases h with h | h
    · rcases hw : st.probeState.workingMethod with _ | m
      · exact absurd hw h
      · have hread : readTemperature e st.probeState = (st.probeState, [m], runProbe e m) := by
          simp [readTemperature, hw]
        obtain ⟨hok, herr⟩ := updateTemperature_cases e t st hs
        cases hr : (readTemperature e st.probeState).2.2 with
        | ok v => rw [hok v hr] at hex; simp at hex
        | error msg =>
          have hmsg : runProbe e m = .error msg := by
            rw [hread] at hr; exact hr
          have hne := runProbe_error_ne e m msg hmsg
          rw [herr msg hr] at hex
          split at hex <;> (simp at hex; exact absurd hex hne)
    · rw [hs] at h; cases h

/-- C10: after every completed acquisition cycle either a working method
is recorded or the scheduler is disabled; consequently a later cycle can
never newly record the exhaustion error — if the cache shows it after a
further cycle, that cycle was a no-op, so only the first-ever cycle can
produce it. -/
theorem C10_exhaustion_once (c : Cycle) (cycles : List Cycle) (e : Env) (t : Nat) :
    ((runCycles (c :: cycles) initState).probeState.workingMethod ≠ none ∨
      (runCycles (c :: cycles) initState).temperatureSupported = false) ∧
    ((updateTemperature e t (runCycles (c :: cycles) initState)).currentTemperature.error =
        some "Unable to read temperature from system" →
      updateTemperature e t (runCycles (c :: cycles) initState) =
        runCycles (c :: cycles) initState) := by
  have hinv : ∀ (cs : List Cycle) (st : ServerState),
      (st.probeState.workingMethod ≠ none ∨ st.temperatureSupported = false) →
      ((runCycles cs st).probeState.workingMethod ≠ none ∨
        (runCycles cs st).temperatureSupported = false) := by
    intro cs
    induction cs with
    | nil => exact fun st h => h
    | cons d ds ih => exact fun st h => ih _ (updateTemperature_inv d.1 d.2 st h)
  have hrun := hinv cycles _ (first_cycle_inv c.1 c.2)
  exact ⟨hrun, fun hex => updateTemperature_no_exhaust e t _ hrun hex⟩

/-- C10 witness at concrete inputs: after an all-fail first cycle the
scheduler is disabled, and a later tick that would show the exhaustion
error is exactly a no-op. -/
theorem C10_exhaustion_once_witness :
    ((runCycles [(envAllFail, 1)] initState).probeState.workingMethod ≠ none ∨
      (runCycles [(envAllFail, 1)] initState).temperatureSupported = false) ∧
    updateTemperature envGood 2 (runCycles [(envAllFail, 1)] initState) =
      runCycles [(envAllFail, 1)] initState := by
  have h := C10_exhaustion_once (envAllFail, 1) [] envGood 2
  refine ⟨h.1, h.2 ?_⟩
  rw [show runCycles [(envAllFail, 1)] initState =
    updateTemperature envAllFail 1 initState from rfl, updAllFail_eval 1]
  rw [updateTemperature_unsupported _ _ _ rfl]

end ServerTemp
